import Mathlib

/-!
Verification of the project scaffolding generator
(`gamemeanmachine/http_storage/generators/project.py`).

The filesystem is modelled as a pair of finite lists: a list of directory
paths and an association list from file paths to file contents.  A path is a
list of components (so `os.path.join(a, "b")` becomes `a ++ ["b"]`, and a
string path such as `"/tmp/proj1"` is parsed into `["tmp", "proj1"]`).  Each
Python filesystem primitive used by the generator (`os.makedirs` with
`exist_ok=True`, `os.listdir`, `open(..., "w").write`, `shutil.copy`) is
embedded as a total function returning the new filesystem together with an
optional error, mirroring the `OSError` subclass that CPython would raise and
the incomplete mutations performed before the failure point.
-/

set_option maxRecDepth 40000

abbrev FsPath := List String

/-- Error outcomes of the modelled filesystem primitives: `fileExists` is
`FileExistsError`, `notADirectory` is `NotADirectoryError`, `fileNotFound` is
`FileNotFoundError` (the spec's `TemplateNotFoundError` when raised by the
template copy), `isADirectory` is `IsADirectoryError`, and
`directoryNotEmpty` is the `OSError("Directory not empty")` raised by
`generate_project` itself. -/
inductive FsError where
  | fileExists
  | notADirectory
  | fileNotFound
  | isADirectory
  | directoryNotEmpty
deriving DecidableEq, Repr

/-- A filesystem state: the set of existing directories (the root `[]` always
exists implicitly) and the existing regular files with their contents. -/
structure FS where
  dirs : List FsPath
  files : List (FsPath × String)
deriving DecidableEq, Repr

/-- Directory existence; the root `[]` always exists. -/
def FS.isDir (fs : FS) (p : FsPath) : Bool :=
  p.isEmpty || decide (p ∈ fs.dirs)

/-- Contents of the regular file at `p`, if one exists. -/
def FS.readFile (fs : FS) (p : FsPath) : Option String :=
  (fs.files.find? (fun e => e.1 == p)).map Prod.snd

/-- Regular-file existence. -/
def FS.isFile (fs : FS) (p : FsPath) : Bool :=
  (fs.readFile p).isSome

/-- Worker for `os.makedirs(..., exist_ok=True)`: walks the components left to
right, keeping existing directories, creating missing ones, and failing on a
component that exists as a regular file (`FileExistsError` when it is the last
component, `NotADirectoryError` for an intermediate one, as CPython raises).
Directories created before the failing component remain created. -/
def FS.mkdirsAux (fs : FS) (done : FsPath) (rest : List String) : FS × Option FsError :=
  match rest with
  | [] => (fs, none)
  | c :: rest' =>
    let q := done ++ [c]
    if fs.isDir q then FS.mkdirsAux fs q rest'
    else if fs.isFile q then
      (fs, some (if rest'.isEmpty then FsError.fileExists else FsError.notADirectory))
    else FS.mkdirsAux { dirs := q :: fs.dirs, files := fs.files } q rest'

/-- `os.makedirs(p, exist_ok=True)`. -/
def FS.makedirs (fs : FS) (p : FsPath) : FS × Option FsError :=
  FS.mkdirsAux fs [] p

/-- Is `q` a direct entry (file or subdirectory) of directory `p`? -/
def isChild (p q : FsPath) : Bool :=
  q.length == p.length + 1 && p.isPrefixOf q

/-- The direct entries of directory `p`, as `os.listdir` would enumerate
them. -/
def FS.children (fs : FS) (p : FsPath) : List FsPath :=
  (fs.dirs ++ fs.files.map Prod.fst).filter (fun q => isChild p q)

/-- All regular files lying below directory `p`, with their contents. -/
def filesUnder (fs : FS) (p : FsPath) : List (FsPath × String) :=
  fs.files.filter (fun e => p.isPrefixOf e.1)

/-- `open(p, "w").write(c)`: fails on a directory target (`IsADirectoryError`)
or a missing/non-directory parent; otherwise creates or truncates the file. -/
def FS.writeFile (fs : FS) (p : FsPath) (c : String) : FS × Option FsError :=
  if fs.isDir p then (fs, some FsError.isADirectory)
  else if fs.isDir p.dropLast then
    ({ dirs := fs.dirs, files := (p, c) :: fs.files.filter (fun e => e.1 != p) }, none)
  else if fs.isFile p.dropLast then (fs, some FsError.notADirectory)
  else (fs, some FsError.fileNotFound)

/-- `shutil.copy(src, dst)` restricted to the content copy the generator
relies on: fails with `FileNotFoundError` when `src` is missing and
`IsADirectoryError` when `src` is a directory. -/
def FS.copy (fs : FS) (src dst : FsPath) : FS × Option FsError :=
  match fs.readFile src with
  | some c => fs.writeFile dst c
  | none =>
    if fs.isDir src then (fs, some FsError.isADirectory)
    else (fs, some FsError.fileNotFound)

/-- Sequencing of fallible filesystem steps: a failed step aborts the rest,
keeping the state reached at the failure point (no rollback). -/
def step (r : FS × Option FsError) (f : FS → FS × Option FsError) : FS × Option FsError :=
  match r with
  | (fs, none) => f fs
  | (fs, some e) => (fs, some e)

/-- Literal segment of the `docker-compose.yml` f-string before the first
`mongodb_port` interpolation. -/
def composeSeg0 : String :=
  "version: \x273.7\x27\nservices:\n  mongodb:\n    image: mongo:6.0\n    env_file: .env\n    ports:\n      - "

/-- Literal segment between the two `mongodb_port` interpolations. -/
def composeSeg1 : String := ":27017\n    expose:\n      - "

/-- Literal segment between the `mongodb_port` and `http_port`
interpolations. -/
def composeSeg2 : String :=
  "\n    volumes:\n      - .tmp/mongo:/data/db\n  http:\n    build:\n      context: ./server\n    env_file: .env\n    ports:\n      - "

/-- Literal segment between the two `http_port` interpolations. -/
def composeSeg3 : String := ":8080\n    expose:\n      - "

/-- Trailing literal segment of the `docker-compose.yml` f-string. -/
def composeSeg4 : String := "\n"

/-- The `docker-compose.yml` contents composed by
`_make_docker_compose_file`. -/
def docker_compose_contents (mongodb_port http_port : Int) : String :=
  composeSeg0 ++ toString mongodb_port ++ composeSeg1 ++ toString mongodb_port ++
    composeSeg2 ++ toString http_port ++ composeSeg3 ++ toString http_port ++ composeSeg4

/-- Literal segments of the `.env` f-string, in order, around the
interpolations `user`, `pass`, `port`, `user`, `pass`, `api_key`. -/
def envSeg0 : String := "MONGO_INITDB_ROOT_USERNAME="

/-- Literal `.env` segment before the first `mongodb_pass` interpolation. -/
def envSeg1 : String := "\nMONGO_INITDB_ROOT_PASSWORD="

/-- Literal `.env` segment before the `mongodb_port` interpolation. -/
def envSeg2 : String := "\nDB_HOST=mongodb\nDB_PORT="

/-- Literal `.env` segment before the second `mongodb_user` interpolation. -/
def envSeg3 : String := "\nDB_USER="

/-- Literal `.env` segment before the second `mongodb_pass` interpolation. -/
def envSeg4 : String := "\nDB_PASS="

/-- Literal `.env` segment before the `server_api_key` interpolation. -/
def envSeg5 : String := "\nSERVER_API_KEY="

/-- Trailing literal `.env` segment (fixed runtime-server constants). -/
def envSeg6 : String := "\nWAITRESS_PORT=8080\nMODULE_NAME=app\nVARIABLE_NAME=app\n"

/-- The `.env` contents composed by `_make_env_file`. -/
def env_contents (mongodb_port : Int) (mongodb_user mongodb_pass server_api_key : String) : String :=
  envSeg0 ++ mongodb_user ++ envSeg1 ++ mongodb_pass ++ envSeg2 ++ toString mongodb_port ++
    envSeg3 ++ mongodb_user ++ envSeg4 ++ mongodb_pass ++ envSeg5 ++ server_api_key ++ envSeg6

/-- The fixed `server/requirements.txt` contents composed by
`_make_requirements_file`. -/
def requirements_contents : String :=
  "# Place any requirements you need in this file.\nalephvault-http-mongodb-storage==0.0.4\n"

/-- The fixed `server/Dockerfile` contents composed by `_make_dockerfile`. -/
def dockerfile_contents : String :=
  "FROM tecktron/python-waitress:python-3.7\n\nCOPY ./ /app\nRUN pip install -r /app/requirements.txt\n# The /app/app.py file will be the entrypoint for waitress serve.\n"

/-- `_make_docker_compose_file`: writes `docker-compose.yml` in the project
directory. -/
def _make_docker_compose_file (fs : FS) (project_path : FsPath) (mongodb_port http_port : Int) :
    FS × Option FsError :=
  FS.writeFile fs (project_path ++ ["docker-compose.yml"]) (docker_compose_contents mongodb_port http_port)

/-- `_make_env_file`: writes `.env` in the project directory. -/
def _make_env_file (fs : FS) (project_path : FsPath) (mongodb_port : Int)
    (mongodb_user mongodb_pass server_api_key : String) : FS × Option FsError :=
  FS.writeFile fs (project_path ++ [".env"])
    (env_contents mongodb_port mongodb_user mongodb_pass server_api_key)

/-- `_make_requirements_file`: writes `server/requirements.txt`. -/
def _make_requirements_file (fs : FS) (project_path : FsPath) : FS × Option FsError :=
  FS.writeFile fs (project_path ++ ["server", "requirements.txt"]) requirements_contents

/-- `_make_dockerfile`: writes `server/Dockerfile`. -/
def _make_dockerfile (fs : FS) (project_path : FsPath) : FS × Option FsError :=
  FS.writeFile fs (project_path ++ ["server", "Dockerfile"]) dockerfile_contents

/-- `_make_init_file`: writes an empty `server/__init__.py`. -/
def _make_init_file (fs : FS) (project_path : FsPath) : FS × Option FsError :=
  FS.writeFile fs (project_path ++ ["server", "__init__.py"]) ("")

/-- Directory holding `project.py` (`os.path.dirname(__file__)`) in the
shipped source tree. -/
def generatorDir : FsPath := ["src", "gamemeanmachine", "http_storage", "generators"]

/-- The `templates` subdirectory shipped next to `project.py`. -/
def templatesDir : FsPath := generatorDir ++ ["templates"]

/-- Location of the bundled simple application template in the shipped source
tree (`generators/templates/simple-application-template.py`). -/
def simpleTemplatePath : FsPath := templatesDir ++ ["simple-application-template.py"]

/-- Stand-in for the bundled simple template's bytes.  The generator treats
template contents as opaque payload (it only copies them verbatim), so every
claim depends only on this file's presence and location, never on its exact
text, which is therefore abstracted by a marker string. -/
def simpleTemplateText : String := "bundled-simple-application-template-bytes"

/-- Splitting of a character list at every occurrence of a separator, the
semantics of Python's `str.split(sep)` for a one-character separator. -/
def splitOnChar (sep : Char) (cs : List Char) : List (List Char) :=
  match cs with
  | [] => [[]]
  | c :: rest =>
    let r := splitOnChar sep rest
    if c = sep then [] :: r
    else (c :: r.headD []) :: r.tail

/-- Parsing of a selector string used as a filesystem path, with the
invocation's working directory modelled as the root. -/
def parsePath (s : String) : FsPath :=
  ((splitOnChar (Char.ofNat 47) s.data).map (fun l => String.mk l)).filter (fun c => c != "")

/-- The newline character. -/
def nlChar : Char := Char.ofNat 10

/-- The lines of a textual artifact (split at every newline), used to state
that an artifact "contains a line". -/
def linesOf (s : String) : List String :=
  (splitOnChar nlChar s.data).map (fun l => String.mk l)

/-- Template resolution performed by `_make_app_file`: the two builtin
identifiers resolve to fixed filenames joined onto `os.path.dirname(__file__)`
(note: not onto the `templates` subdirectory); any other selector is a literal
filesystem path. -/
def resolveTemplate (template : String) : FsPath :=
  if template == "default:simple" then generatorDir ++ ["simple-application-template.py"]
  else if template == "default:multiple" then generatorDir ++ ["multichar-application-template.py"]
  else parsePath template

/-- `_make_app_file`: resolves the template selector and copies the resolved
file to `server/app.py`. -/
def _make_app_file (fs : FS) (project_path : FsPath) (template : String) : FS × Option FsError :=
  FS.copy fs (resolveTemplate template) (project_path ++ ["server", "app.py"])

/-- `generate_project`: creates the target directory, requires it to be
empty, creates the `server` subdirectory and writes all artifacts in the
source's order. -/
def generate_project (fs : FS) (full_path : FsPath) (template : String)
    (mongodb_port : Int) (http_port : Int)
    (mongodb_user : String) (mongodb_pass : String) (server_api_key : String) :
    FS × Option FsError :=
  step (FS.makedirs fs full_path) (fun fs1 =>
    if (FS.children fs1 full_path).length != 0 then (fs1, some FsError.directoryNotEmpty)
    else step (FS.makedirs fs1 (full_path ++ ["server"])) (fun fs2 =>
      step (_make_docker_compose_file fs2 full_path mongodb_port http_port) (fun fs3 =>
        step (_make_env_file fs3 full_path mongodb_port mongodb_user mongodb_pass server_api_key) (fun fs4 =>
          step (_make_dockerfile fs4 full_path) (fun fs5 =>
            step (_make_requirements_file fs5 full_path) (fun fs6 =>
              step (_make_init_file fs6 full_path) (fun fs7 =>
                _make_app_file fs7 full_path template)))))))

/-- The filesystem as shipped in the repository: the generator package tree
with the bundled simple template under `templates/`, and nothing else.  Note
that no `multichar-application-template.py` is shipped anywhere. -/
def shippedFS : FS :=
  { dirs := [["src"], ["src", "gamemeanmachine"], ["src", "gamemeanmachine", "http_storage"],
             generatorDir, templatesDir],
    files := [(simpleTemplatePath, simpleTemplateText)] }

/-- The shipped template's location written as a selector string (a plain
filesystem path, not a builtin identifier). -/
def simpleTemplateRelPath : String :=
  "src/gamemeanmachine/http_storage/generators/templates/simple-application-template.py"

/-- The five artifacts written by a `generate_project` run before the
template copy, newest first (the order in which the state accumulates). -/
def writtenFiles (fp : FsPath) (mp hp : Int) (mu mpw mk : String) : List (FsPath × String) :=
  [(fp ++ ["server", "__init__.py"], ""),
   (fp ++ ["server", "requirements.txt"], requirements_contents),
   (fp ++ ["server", "Dockerfile"], dockerfile_contents),
   (fp ++ [".env"], env_contents mp mu mpw mk),
   (fp ++ ["docker-compose.yml"], docker_compose_contents mp hp)]

/-! ### Generic facts about paths, prefixes and the filesystem primitives -/

lemma isPrefixOf_self_app (p t : FsPath) : p.isPrefixOf (p ++ t) = true := by
  induction p with
  | nil => simp [List.isPrefixOf]
  | cons a p ih => simp [List.isPrefixOf, ih]

lemma isPrefixOf_ex {p q : FsPath} (h : p.isPrefixOf q = true) : ∃ t, q = p ++ t := by
  rw [ List.isPrefixOf_iff_prefix] at h
  obtain ⟨t, ht⟩ := h
  exact ⟨t, ht.symm⟩

lemma isChild_short {p q : FsPath} (h : q.length ≤ p.length) : isChild p q = false := by
  have hlen : (q.length == p.length + 1) = false := by
    simp only [beq_eq_false_iff_ne, ne_eq]
    omega
  simp [isChild, hlen]

lemma app_ne_nil (l : FsPath) (a : String) : (l ++ [a]).isEmpty = false := by
  cases l <;> simp [List.isEmpty]

lemma app_suffix_ne {fp : FsPath} {s s' : List String} (h : s ≠ s') : fp ++ s ≠ fp ++ s' :=
  fun hh => h (List.append_cancel_left hh)

lemma snoc_decomp {r₁ r₂ l : List String} {a : String} (h : r₁ ++ r₂ = l ++ [a]) :
    r₁ = l ++ [a] ∨ ∃ t, l = r₁ ++ t := by
  cases r₂ with
  | nil => left; simpa using h
  | cons b r₂' =>
    right
    have hlen : r₁.length ≤ l.length := by
      have := congrArg List.length h
      simp [List.length_append] at this
      omega
    have htake := congrArg (List.take r₁.length) h
    rw [List.take_left, List.take_append_of_le_length hlen] at htake
    refine ⟨l.drop r₁.length, ?_⟩
    conv_lhs => rw [← List.take_append_drop r₁.length l]
    rw [← htake]

lemma isFile_files_only (d : List FsPath) (fs : FS) (p : FsPath) :
    FS.isFile ⟨d, fs.files⟩ p = fs.isFile p := rfl

lemma isDir_app (ds D : List FsPath) (f f' : List (FsPath × String)) (x : FsPath)
    (h : FS.isDir ⟨D, f⟩ x = true) : FS.isDir ⟨ds ++ D, f'⟩ x = true := by
  simp [FS.isDir] at h ⊢
  rcases h with h | h
  · exact Or.inl h
  · exact Or.inr (Or.inr h)

/-- A successful `makedirs` worker run: when no handled prefix exists as a
regular file, it returns no error, leaves the files untouched, only adds
directories (each of them one of the handled prefixes), and afterwards every
handled prefix exists as a directory. -/
lemma mkdirsAux_ok (fs : FS) (done : FsPath) (rest : List String)
    (h : ∀ r₁ r₂ : List String, rest = r₁ ++ r₂ → r₁ ≠ [] → fs.isFile (done ++ r₁) = false) :
    ∃ ds : List FsPath,
      FS.mkdirsAux fs done rest = (⟨ds ++ fs.dirs, fs.files⟩, none) ∧
      (∀ q ∈ ds, ∃ r₁ r₂ : List String, rest = r₁ ++ r₂ ∧ r₁ ≠ [] ∧ q = done ++ r₁) ∧
      (∀ r₁ r₂ : List String, rest = r₁ ++ r₂ → r₁ ≠ [] →
        FS.isDir ⟨ds ++ fs.dirs, fs.files⟩ (done ++ r₁) = true) := by
  induction rest generalizing fs done with
  | nil =>
    refine ⟨[], by simp [FS.mkdirsAux], by simp, ?_⟩
    intro r₁ r₂ hr h1
    rcases List.append_eq_nil.mp hr.symm with ⟨h2, _⟩
    exact absurd h2 h1
  | cons c rest' ih =>
    cases hdir : fs.isDir (done ++ [c]) with
    | true =>
      have hih : ∀ r₁ r₂ : List String, rest' = r₁ ++ r₂ → r₁ ≠ [] →
          fs.isFile ((done ++ [c]) ++ r₁) = false := by
        intro r₁ r₂ hr h1
        have hh := h (c :: r₁) r₂ (by simp [hr]) (by simp)
        rwa [show done ++ c :: r₁ = (done ++ [c]) ++ r₁ by simp] at hh
      obtain ⟨ds, heq, hds, hdirs⟩ := ih fs (done ++ [c]) hih
      refine ⟨ds, by simp [FS.mkdirsAux, hdir]; exact heq, ?_, ?_⟩
      · intro q hq
        obtain ⟨r₁, r₂, hr, h1, rfl⟩ := hds q hq
        exact ⟨c :: r₁, r₂, by simp [hr], by simp, by simp⟩
      · intro r₁ r₂ hr h1
        cases r₁ with
        | nil => exact absurd rfl h1
        | cons c₀ r₁' =>
          have hc₀ : c = c₀ ∧ rest' = r₁' ++ r₂ := by
            constructor
            · exact (List.cons.injEq c rest' c₀ (r₁' ++ r₂) ▸ congrArg id hr).1
            · exact (List.cons.injEq c rest' c₀ (r₁' ++ r₂) ▸ congrArg id hr).2
          obtain ⟨rfl, hr'⟩ := hc₀
          by_cases h1' : r₁' = []
          · subst h1'
            simpa using isDir_app ds fs.dirs fs.files fs.files (done ++ [c]) hdir
          · have hh := hdirs r₁' r₂ hr' h1'
            rwa [show (done ++ [c]) ++ r₁' = done ++ c :: r₁' by simp] at hh
    | false =>
      have hfile : fs.isFile (done ++ [c]) = false := h [c] rest' rfl (by simp)
      have hih : ∀ r₁ r₂ : List String, rest' = r₁ ++ r₂ → r₁ ≠ [] →
          FS.isFile ⟨(done ++ [c]) :: fs.dirs, fs.files⟩ ((done ++ [c]) ++ r₁) = false := by
        intro r₁ r₂ hr h1
        rw [isFile_files_only]
        have hh := h (c :: r₁) r₂ (by simp [hr]) (by simp)
        rwa [show done ++ c :: r₁ = (done ++ [c]) ++ r₁ by simp] at hh
      obtain ⟨ds, heq, hds, hdirs⟩ := ih ⟨(done ++ [c]) :: fs.dirs, fs.files⟩ (done ++ [c]) hih
      refine ⟨ds ++ [done ++ [c]], ?_, ?_, ?_⟩
      · rw [show FS.mkdirsAux fs done (c :: rest') =
            FS.mkdirsAux ⟨(done ++ [c]) :: fs.dirs, fs.files⟩ (done ++ [c]) rest' by
          simp [FS.mkdirsAux, hdir, hfile]]
        rw [heq]
        simp
      · intro q hq
        rcases List.mem_append.mp hq with hq | hq
        · obtain ⟨r₁, r₂, hr, h1, rfl⟩ := hds q hq
          exact ⟨c :: r₁, r₂, by simp [hr], by simp, by simp⟩
        · rw [List.mem_singleton.mp hq]
          exact ⟨[c], rest', rfl, by simp, rfl⟩
      · intro r₁ r₂ hr h1
        have hlist : (ds ++ [done ++ [c]]) ++ fs.dirs = ds ++ (done ++ [c]) :: fs.dirs := by simp
        cases r₁ with
        | nil => exact absurd rfl h1
        | cons c₀ r₁' =>
          have hc₀ : c = c₀ ∧ rest' = r₁' ++ r₂ := by
            constructor
            · exact (List.cons.injEq c rest' c₀ (r₁' ++ r₂) ▸ congrArg id hr).1
            · exact (List.cons.injEq c rest' c₀ (r₁' ++ r₂) ▸ congrArg id hr).2
          obtain ⟨rfl, hr'⟩ := hc₀
          by_cases h1' : r₁' = []
          · subst h1'
            rw [hlist]
            simp [FS.isDir]
          · have hh := hdirs r₁' r₂ hr' h1'
            rw [hlist]
            rwa [show (done ++ [c]) ++ r₁' = done ++ c :: r₁' by simp] at hh

/-- The `makedirs` worker changes nothing when every handled prefix already
exists as a directory. -/
lemma mkdirsAux_nochange (fs : FS) (done : FsPath) (rest : List String)
    (h : ∀ r₁ r₂ : List String, rest = r₁ ++ r₂ → r₁ ≠ [] → fs.isDir (done ++ r₁) = true) :
    FS.mkdirsAux fs done rest = (fs, none) := by
  induction rest generalizing done with
  | nil => simp [FS.mkdirsAux]
  | cons c rest' ih =>
    have hdir : fs.isDir (done ++ [c]) = true := h [c] rest' rfl (by simp)
    rw [show FS.mkdirsAux fs done (c :: rest') = FS.mkdirsAux fs (done ++ [c]) rest' by
      simp [FS.mkdirsAux, hdir]]
    apply ih
    intro r₁ r₂ hr h1
    have hh := h (c :: r₁) r₂ (by simp [hr]) (by simp)
    rwa [show done ++ c :: r₁ = (done ++ [c]) ++ r₁ by simp] at hh

/-- The `makedirs` worker stops with `FileExistsError`, changing nothing, when
every proper handled prefix is an existing directory but the full requested
path exists as a regular file. -/
lemma mkdirsAux_file_stop (fs : FS) (done : FsPath) (rest : List String) (hne : rest ≠ [])
    (h : ∀ r₁ r₂ : List String, rest = r₁ ++ r₂ → r₁ ≠ [] → r₂ ≠ [] → fs.isDir (done ++ r₁) = true)
    (hd : fs.isDir (done ++ rest) = false) (hf : fs.isFile (done ++ rest) = true) :
    FS.mkdirsAux fs done rest = (fs, some FsError.fileExists) := by
  induction rest generalizing done with
  | nil => exact absurd rfl hne
  | cons c rest' ih =>
    cases rest' with
    | nil =>
      simp only [FS.mkdirsAux]
      rw [show done ++ [c] = done ++ [c] ++ [] by simp] at hd hf
      simp at hd hf
      simp [hd, hf]
    | cons c' rest2 =>
      have hdir : fs.isDir (done ++ [c]) = true := h [c] (c' :: rest2) rfl (by simp) (by simp)
      rw [show FS.mkdirsAux fs done (c :: c' :: rest2) =
          FS.mkdirsAux fs (done ++ [c]) (c' :: rest2) by simp [FS.mkdirsAux, hdir]]
      have harr : done ++ c :: c' :: rest2 = (done ++ [c]) ++ (c' :: rest2) := by simp
      apply ih (done ++ [c]) (by simp)
      · intro r₁ r₂ hr h1 h2
        have hh := h (c :: r₁) r₂ (by simp [hr]) (by simp) h2
        rwa [show done ++ c :: r₁ = (done ++ [c]) ++ r₁ by simp] at hh
      · rwa [harr] at hd
      · rwa [harr] at hf

/-- A successful write appends exactly one file entry when no entry with the
written path already exists. -/
lemma writeFile_ok (fs : FS) (p : FsPath) (c : String)
    (h1 : fs.isDir p = false) (h2 : fs.isDir p.dropLast = true)
    (h3 : ∀ e ∈ fs.files, e.1 ≠ p) :
    FS.writeFile fs p c = (⟨fs.dirs, (p, c) :: fs.files⟩, none) := by
  have hfilter : fs.files.filter (fun e => e.1 != p) = fs.files := by
    rw [List.filter_eq_self]
    intro a ha
    simpa using h3 a ha
  simp [FS.writeFile, h1, h2, hfilter]

lemma readFile_head (d : List FsPath) (p : FsPath) (c : String) (f : List (FsPath × String)) :
    FS.readFile ⟨d, (p, c) :: f⟩ p = some c := by
  simp [FS.readFile]

lemma readFile_skip {q p : FsPath} (hne : q ≠ p) (d : List FsPath) (c : String)
    (f : List (FsPath × String)) :
    FS.readFile ⟨d, (q, c) :: f⟩ p = FS.readFile ⟨d, f⟩ p := by
  simp [FS.readFile, List.find?_cons_of_neg, hne]

lemma readFile_app_skip (w : List (FsPath × String)) (d : List FsPath)
    (f0 : List (FsPath × String)) (p : FsPath) (h : ∀ e ∈ w, e.1 ≠ p) :
    FS.readFile ⟨d, w ++ f0⟩ p = FS.readFile ⟨d, f0⟩ p := by
  induction w with
  | nil => rfl
  | cons e w ih =>
    rw [List.cons_append]
    rw [show (⟨d, e :: (w ++ f0)⟩ : FS) = ⟨d, (e.1, e.2) :: (w ++ f0)⟩ by rfl]
    rw [readFile_skip (h e (by simp)) d e.2 (w ++ f0)]
    exact ih (fun e' he' => h e' (by simp [he']))

lemma isDir_files_only (d : List FsPath) (f f' : List (FsPath × String)) (p : FsPath) :
    FS.isDir ⟨d, f⟩ p = FS.isDir ⟨d, f'⟩ p := rfl

lemma isFile_mem {fs : FS} {p : FsPath} (h : fs.isFile p = true) : ∃ e ∈ fs.files, e.1 = p := by
  unfold FS.isFile FS.readFile at h
  rw [Option.isSome_map'] at h
  obtain ⟨e, he⟩ := Option.isSome_iff_exists.mp h
  exact ⟨e, List.mem_of_find?_eq_some he, by simpa using List.find?_some he⟩

lemma isFile_app_false {fs0 : FS} {fp : FsPath}
    (hc : ∀ e ∈ fs0.files, fp.isPrefixOf e.1 = false) (s : List String) :
    fs0.isFile (fp ++ s) = false := by
  cases hfE : fs0.isFile (fp ++ s) with
  | false => rfl
  | true =>
    obtain ⟨e, hmem, hep⟩ := isFile_mem hfE
    have hpre := hc e hmem
    rw [hep, isPrefixOf_self_app] at hpre
    simp at hpre

lemma ne_target {fp : FsPath} {e : FsPath × String}
    (hce : fp.isPrefixOf e.1 = false) (s : List String) : e.1 ≠ fp ++ s := by
  intro h
  rw [h, isPrefixOf_self_app] at hce
  simp at hce

lemma dirs_characterization {fs0 : FS} {fp : FsPath} {d : List FsPath}
    (hb : ∀ q ∈ fs0.dirs, fp.isPrefixOf q = true → q = fp)
    (hd : ∀ q ∈ d, q ∈ fp.inits ∨ q = fp ++ ["server"]) :
    ∀ q ∈ d ++ fs0.dirs, fp.isPrefixOf q = true → q = fp ∨ q = fp ++ ["server"] := by
  intro q hq hpre
  rcases List.mem_append.mp hq with hq | hq
  · rcases hd q hq with hq' | hq'
    · left
      obtain ⟨s, rfl⟩ := isPrefixOf_ex hpre
      obtain ⟨t, ht⟩ := (List.mem_inits _ _).mp hq'
      have hlen := congrArg List.length ht
      simp only [List.length_append] at hlen
      have hs : s = [] := List.eq_nil_of_length_eq_zero (by omega)
      simp [hs]
    · exact Or.inr hq'
  · exact Or.inl (hb q hq hpre)

lemma isDir_target_false (D : List FsPath) (f : List (FsPath × String)) (fp : FsPath)
    (suffix : List String)
    (hD : ∀ q ∈ D, fp.isPrefixOf q = true → q = fp ∨ q = fp ++ ["server"])
    (h1 : suffix ≠ []) (h2 : suffix ≠ ["server"]) :
    FS.isDir ⟨D, f⟩ (fp ++ suffix) = false := by
  simp only [FS.isDir, Bool.or_eq_false_iff, decide_eq_false_iff_not]
  constructor
  · cases suffix with
    | nil => exact absurd rfl h1
    | cons a s => cases fp <;> simp [List.isEmpty]
  · intro hmem
    rcases hD _ hmem (isPrefixOf_self_app fp suffix) with he | he
    · have hlen := congrArg List.length he
      simp only [List.length_append] at hlen
      exact absurd (List.eq_nil_of_length_eq_zero (by omega)) h1
    · exact absurd (List.append_cancel_left he) h2


lemma isDir_mem {D : List FsPath} {f : List (FsPath × String)} {p : FsPath}
    (h : FS.isDir ⟨D, f⟩ p = true) (hne : p.isEmpty = false) : p ∈ D := by
  simp [FS.isDir, hne] at h
  exact h

lemma dropLast_app1 (fp : FsPath) (a : String) : (fp ++ [a]).dropLast = fp := by
  simp

lemma dropLast_app2 (fp : FsPath) (a b : String) : (fp ++ [a, b]).dropLast = fp ++ [a] := by
  rw [show fp ++ [a, b] = (fp ++ [a]) ++ [b] by simp, dropLast_app1]

/-- One artifact write over a state whose directories are characterised by
the fresh-target invariant and whose files all differ from the target. -/
lemma write_step (Dall : List FsPath) (f : List (FsPath × String)) (fp : FsPath)
    (suffix : List String) (c : String)
    (hD : ∀ q ∈ Dall, fp.isPrefixOf q = true → q = fp ∨ q = fp ++ ["server"])
    (hpar : FS.isDir ⟨Dall, ([] : List (FsPath × String))⟩ ((fp ++ suffix).dropLast) = true)
    (h1 : suffix ≠ []) (h2 : suffix ≠ ["server"])
    (hf : ∀ e ∈ f, e.1 ≠ fp ++ suffix) :
    FS.writeFile ⟨Dall, f⟩ (fp ++ suffix) c = (⟨Dall, (fp ++ suffix, c) :: f⟩, none) := by
  apply writeFile_ok
  · exact isDir_target_false Dall _ fp suffix hD h1 h2
  · rw [show ((⟨Dall, f⟩ : FS)).isDir ((fp ++ suffix).dropLast) =
        FS.isDir ⟨Dall, ([] : List (FsPath × String))⟩ ((fp ++ suffix).dropLast) from rfl]
    exact hpar
  · exact hf

/-- Central simulation lemma: on a base filesystem whose target directory is
fresh (no file on the path to it, no directory strictly below it, no file
below it), `generate_project` reaches the template-copy step with exactly the
five composed artifacts written and the `server` subdirectory created. -/
lemma generate_project_run (fs0 : FS) (fp : FsPath) (template : String)
    (mp hp : Int) (mu mpw mk : String)
    (ha : ∀ q ∈ fp.inits, fs0.isFile q = false)
    (hb : ∀ q ∈ fs0.dirs, fp.isPrefixOf q = true → q = fp)
    (hc : ∀ e ∈ fs0.files, fp.isPrefixOf e.1 = false) :
    ∃ d : List FsPath,
      (∀ q ∈ d ++ fs0.dirs, fp.isPrefixOf q = true → q = fp ∨ q = fp ++ ["server"]) ∧
      (fp ++ ["server"]) ∈ d ++ fs0.dirs ∧
      (∀ q ∈ d, q ∈ fp.inits ∨ q = fp ++ ["server"]) ∧
      generate_project fs0 fp template mp hp mu mpw mk =
        FS.copy ⟨d ++ fs0.dirs, writtenFiles fp mp hp mu mpw mk ++ fs0.files⟩
          (resolveTemplate template) (fp ++ ["server", "app.py"]) := by
  have ha' : ∀ r₁ r₂ : List String, fp = r₁ ++ r₂ → r₁ ≠ [] → fs0.isFile ([] ++ r₁) = false := by
    intro r₁ r₂ hr h1
    rw [List.nil_append]
    exact ha r₁ ((List.mem_inits _ _).mpr ⟨r₂, hr.symm⟩)
  obtain ⟨ds₁, heq₁, hds₁, hdirs₁⟩ := mkdirsAux_ok fs0 [] fp ha'
  have hds₁' : ∀ q ∈ ds₁, q ∈ fp.inits := by
    intro q hq
    obtain ⟨r₁, r₂, hr, h1, rfl⟩ := hds₁ q hq
    exact (List.mem_inits _ _).mpr ⟨r₂, hr.symm⟩
  -- the freshly ensured target directory is empty
  have hch : FS.children ⟨ds₁ ++ fs0.dirs, fs0.files⟩ fp = [] := by
    unfold FS.children
    rw [List.filter_eq_nil_iff]
    intro q hq
    rcases List.mem_append.mp hq with hq | hq
    · rcases List.mem_append.mp hq with hq | hq
      · have hle : q.length ≤ fp.length := ((List.mem_inits _ _).mp (hds₁' q hq)).length_le
        simp [isChild_short hle]
      · intro hcontra
        have hsplit := hcontra
        simp only [isChild, Bool.and_eq_true, beq_iff_eq] at hsplit
        have hqfp := hb q hq hsplit.2
        rw [hqfp] at hsplit
        omega
    · obtain ⟨e, hmem, rfl⟩ := List.mem_map.mp hq
      simp [isChild, hc e hmem]
  -- creating the server subdirectory
  have ha₂ : ∀ r₁ r₂ : List String, fp ++ ["server"] = r₁ ++ r₂ → r₁ ≠ [] →
      FS.isFile ⟨ds₁ ++ fs0.dirs, fs0.files⟩ ([] ++ r₁) = false := by
    intro r₁ r₂ hr h1
    rw [List.nil_append, isFile_files_only (ds₁ ++ fs0.dirs) fs0 r₁]
    rcases snoc_decomp hr.symm with he | ⟨t, ht⟩
    · rw [he]
      exact isFile_app_false hc ["server"]
    · exact ha r₁ ((List.mem_inits _ _).mpr ⟨t, ht.symm⟩)
  obtain ⟨ds₂, heq₂, hds₂, hdirs₂⟩ :=
    mkdirsAux_ok ⟨ds₁ ++ fs0.dirs, fs0.files⟩ [] (fp ++ ["server"]) ha₂
  have hd : ∀ q ∈ ds₂ ++ ds₁, q ∈ fp.inits ∨ q = fp ++ ["server"] := by
    intro q hq
    rcases List.mem_append.mp hq with hq | hq
    · obtain ⟨r₁, r₂, hr, h1, rfl⟩ := hds₂ q hq
      rcases snoc_decomp hr.symm with he | ⟨t, ht⟩
      · exact Or.inr he
      · exact Or.inl ((List.mem_inits _ _).mpr ⟨t, ht.symm⟩)
    · exact Or.inl (hds₁' q hq)
  have hD : ∀ q ∈ (ds₂ ++ ds₁) ++ fs0.dirs, fp.isPrefixOf q = true → q = fp ∨ q = fp ++ ["server"] :=
    dirs_characterization hb hd
  have hassoc : (ds₂ ++ ds₁) ++ fs0.dirs = ds₂ ++ (ds₁ ++ fs0.dirs) :=
    List.append_assoc ds₂ ds₁ fs0.dirs
  have hserver0 := hdirs₂ (fp ++ ["server"]) [] (by simp) (by simp)
  rw [List.nil_append] at hserver0
  have hserver : (fp ++ ["server"]) ∈ (ds₂ ++ ds₁) ++ fs0.dirs := by
    rw [hassoc]
    exact isDir_mem hserver0 (app_ne_nil fp ("server"))
  have hDall : ∀ q ∈ ds₂ ++ (ds₁ ++ fs0.dirs), fp.isPrefixOf q = true →
      q = fp ∨ q = fp ++ ["server"] := by
    rw [← hassoc]
    exact hD
  have hserverdir : FS.isDir ⟨ds₂ ++ (ds₁ ++ fs0.dirs), ([] : List (FsPath × String))⟩
      (fp ++ ["server"]) = true := by
    rw [isDir_files_only _ _ fs0.files]
    exact hserver0
  have hfpdir : FS.isDir ⟨ds₂ ++ (ds₁ ++ fs0.dirs), ([] : List (FsPath × String))⟩ fp = true := by
    by_cases hfp : fp = []
    · subst hfp
      simp [FS.isDir]
    · have hh := hdirs₂ fp ["server"] rfl hfp
      rw [List.nil_append] at hh
      rw [isDir_files_only _ _ fs0.files]
      exact hh
  refine ⟨ds₂ ++ ds₁, hD, hserver, hd, ?_⟩
  rw [hassoc]
  unfold generate_project FS.makedirs
  rw [heq₁]
  simp only [step]
  rw [hch]
  simp only [List.length_nil, bne_self_eq_false, Bool.false_eq_true, if_false]
  rw [heq₂]
  simp only [step]
  unfold _make_docker_compose_file _make_env_file _make_dockerfile _make_requirements_file
    _make_init_file _make_app_file
  rw [write_step _ _ fp ["docker-compose.yml"] _ hDall
    (by rw [dropLast_app1]; exact hfpdir) (by simp) (by simp)
    (fun e he => ne_target (hc e he) _)]
  simp only [step]
  rw [write_step _ _ fp [".env"] _ hDall
    (by rw [dropLast_app1]; exact hfpdir) (by simp) (by simp)
    (by
      intro e he
      simp only [List.mem_cons] at he
      rcases he with rfl | he
      · exact app_suffix_ne (by simp)
      · exact ne_target (hc e he) _)]
  simp only [step]
  rw [write_step _ _ fp ["server", "Dockerfile"] _ hDall
    (by rw [dropLast_app2]; exact hserverdir) (by simp) (by simp)
    (by
      intro e he
      simp only [List.mem_cons] at he
      rcases he with rfl | rfl | he
      · exact app_suffix_ne (by simp)
      · exact app_suffix_ne (by simp)
      · exact ne_target (hc e he) _)]
  simp only [step]
  rw [write_step _ _ fp ["server", "requirements.txt"] _ hDall
    (by rw [dropLast_app2]; exact hserverdir) (by simp) (by simp)
    (by
      intro e he
      simp only [List.mem_cons] at he
      rcases he with rfl | rfl | rfl | he
      · exact app_suffix_ne (by simp)
      · exact app_suffix_ne (by simp)
      · exact app_suffix_ne (by simp)
      · exact ne_target (hc e he) _)]
  simp only [step]
  rw [write_step _ _ fp ["server", "__init__.py"] _ hDall
    (by rw [dropLast_app2]; exact hserverdir) (by simp) (by simp)
    (by
      intro e he
      simp only [List.mem_cons] at he
      rcases he with rfl | rfl | rfl | rfl | he
      · exact app_suffix_ne (by simp)
      · exact app_suffix_ne (by simp)
      · exact app_suffix_ne (by simp)
      · exact app_suffix_ne (by simp)
      · exact ne_target (hc e he) _)]
  simp only [step]
  rfl

lemma writeFile_read (fs : FS) (p : FsPath) (c : String)
    (h : (FS.writeFile fs p c).2 = none) :
    (FS.writeFile fs p c).1.readFile p = some c := by
  unfold FS.writeFile at h ⊢
  split at h
  · simp at h
  · split at h
    · rename_i h1 h2
      rw [if_neg h1, if_pos h2]
      exact readFile_head fs.dirs p c _
    · split at h <;> simp at h

lemma app_ne_of_not_under {fp x : FsPath} (h : fp.isPrefixOf x = false) (s : List String) :
    fp ++ s ≠ x := by
  intro hh
  rw [← hh, isPrefixOf_self_app] at h
  simp at h

/-- C2: generating into an already existing directory that contains at least
one entry fails with the directory-not-empty error and leaves the filesystem
completely unchanged: the emptiness check precedes every artifact write. -/
theorem c2_nonempty_dir_rejected (fs0 : FS) (fp : FsPath) (template : String)
    (mp hp : Int) (mu mpw mk : String)
    (h1 : ∀ q ∈ fp.inits, q ≠ [] → fs0.isDir q = true)
    (h2 : (FS.children fs0 fp).length ≠ 0) :
    generate_project fs0 fp template mp hp mu mpw mk = (fs0, some FsError.directoryNotEmpty) := by
  have hmk : FS.mkdirsAux fs0 [] fp = (fs0, none) := by
    apply mkdirsAux_nochange
    intro r₁ r₂ hr hne
    rw [List.nil_append]
    exact h1 r₁ ((List.mem_inits _ _).mpr ⟨r₂, hr.symm⟩) hne
  have hcond : ((FS.children fs0 fp).length != 0) = true := by
    simpa [bne_iff_ne] using h2
  unfold generate_project FS.makedirs
  rw [hmk]
  simp only [step]
  rw [if_pos hcond]

/-- C2 witness: a concrete directory `proj` containing the single entry
`junk` is rejected untouched. -/
theorem c2_nonempty_dir_rejected_witness :
    (∀ q ∈ (["proj"] : FsPath).inits, q ≠ [] →
      FS.isDir ⟨[["proj"]], [(["proj", "junk"], "x")]⟩ q = true) ∧
    (FS.children ⟨[["proj"]], [(["proj", "junk"], "x")]⟩ ["proj"]).length ≠ 0 ∧
    generate_project ⟨[["proj"]], [(["proj", "junk"], "x")]⟩ ["proj"] ("default:simple")
        27017 8080 ("admin") ("p455w0rd") ("sample-abcdef") =
      (⟨[["proj"]], [(["proj", "junk"], "x")]⟩, some FsError.directoryNotEmpty) :=
  ⟨by decide, by decide,
    c2_nonempty_dir_rejected ⟨[["proj"]], [(["proj", "junk"], "x")]⟩ ["proj"] ("default:simple")
      27017 8080 ("admin") ("p455w0rd") ("sample-abcdef") (by decide) (by decide)⟩

/-- C10: when the target path names an existing regular file (its parents
being directories), `generate_project` fails inside the directory-creation
step with the file-exists error, before the emptiness check and before any
artifact write, leaving the filesystem unchanged. -/
theorem c10_target_is_regular_file (fs0 : FS) (fp : FsPath) (template : String) (mp hp : Int)
    (mu mpw mk : String) (h0 : fp ≠ [])
    (h1 : ∀ q ∈ fp.inits, q ≠ fp → q ≠ [] → fs0.isDir q = true)
    (h2 : fs0.isDir fp = false) (h3 : fs0.isFile fp = true) :
    generate_project fs0 fp template mp hp mu mpw mk = (fs0, some FsError.fileExists) := by
  have hmk : FS.mkdirsAux fs0 [] fp = (fs0, some FsError.fileExists) := by
    apply mkdirsAux_file_stop fs0 [] fp h0
    · intro r₁ r₂ hr hne hr₂
      rw [List.nil_append]
      refine h1 r₁ ((List.mem_inits _ _).mpr ⟨r₂, hr.symm⟩) ?_ hne
      intro hcontra
      rw [hcontra] at hr
      have hlen := congrArg List.length hr
      simp only [List.length_append] at hlen
      exact hr₂ (List.eq_nil_of_length_eq_zero (by omega))
    · rw [List.nil_append]
      exact h2
    · rw [List.nil_append]
      exact h3
  unfold generate_project FS.makedirs
  rw [hmk]
  simp only [step]

/-- C10 witness: the path `a/f`, existing as a regular file below directory
`a`, aborts generation with the file-exists error, filesystem unchanged. -/
theorem c10_target_is_regular_file_witness :
    FS.isFile ⟨[["a"]], [(["a", "f"], "x")]⟩ ["a", "f"] = true ∧
    generate_project ⟨[["a"]], [(["a", "f"], "x")]⟩ ["a", "f"] ("default:simple")
        27017 8080 ("admin") ("p455w0rd") ("sample-abcdef") =
      (⟨[["a"]], [(["a", "f"], "x")]⟩, some FsError.fileExists) :=
  ⟨by decide,
    c10_target_is_regular_file ⟨[["a"]], [(["a", "f"], "x")]⟩ ["a", "f"] ("default:simple")
      27017 8080 ("admin") ("p455w0rd") ("sample-abcdef") (by decide) (by decide) (by decide)
      (by decide)⟩

/-- C6: the orchestration, environment, build-file and dependency-manifest
composers are deterministic: two successful invocations with identical
parameters — against arbitrary, possibly different, filesystem states and
project paths — leave byte-identical artifact contents on disk. -/
theorem c6_composers_deterministic (fsa fsb : FS) (pa pb : FsPath) (mp hp : Int)
    (mu mpw mk : String)
    (h1 : (_make_docker_compose_file fsa pa mp hp).2 = none)
    (h2 : (_make_docker_compose_file fsb pb mp hp).2 = none)
    (h3 : (_make_env_file fsa pa mp mu mpw mk).2 = none)
    (h4 : (_make_env_file fsb pb mp mu mpw mk).2 = none)
    (h5 : (_make_dockerfile fsa pa).2 = none)
    (h6 : (_make_dockerfile fsb pb).2 = none)
    (h7 : (_make_requirements_file fsa pa).2 = none)
    (h8 : (_make_requirements_file fsb pb).2 = none) :
    (_make_docker_compose_file fsa pa mp hp).1.readFile (pa ++ ["docker-compose.yml"]) =
      (_make_docker_compose_file fsb pb mp hp).1.readFile (pb ++ ["docker-compose.yml"]) ∧
    (_make_env_file fsa pa mp mu mpw mk).1.readFile (pa ++ [".env"]) =
      (_make_env_file fsb pb mp mu mpw mk).1.readFile (pb ++ [".env"]) ∧
    (_make_dockerfile fsa pa).1.readFile (pa ++ ["server", "Dockerfile"]) =
      (_make_dockerfile fsb pb).1.readFile (pb ++ ["server", "Dockerfile"]) ∧
    (_make_requirements_file fsa pa).1.readFile (pa ++ ["server", "requirements.txt"]) =
      (_make_requirements_file fsb pb).1.readFile (pb ++ ["server", "requirements.txt"]) := by
  unfold _make_docker_compose_file at h1 h2 ⊢
  unfold _make_env_file at h3 h4 ⊢
  unfold _make_dockerfile at h5 h6 ⊢
  unfold _make_requirements_file at h7 h8 ⊢
  refine ⟨?_, ?_, ?_, ?_⟩
  · rw [writeFile_read _ _ _ h1, writeFile_read _ _ _ h2]
  · rw [writeFile_read _ _ _ h3, writeFile_read _ _ _ h4]
  · rw [writeFile_read _ _ _ h5, writeFile_read _ _ _ h6]
  · rw [writeFile_read _ _ _ h7, writeFile_read _ _ _ h8]

/-- C6 witness: two concrete distinct filesystems and project paths receive
byte-identical artifacts from each composer. -/
theorem c6_composers_deterministic_witness :
    ((_make_docker_compose_file ⟨[["a"], ["a", "server"]], []⟩ ["a"] 27017 8080).2 = none ∧
      (_make_docker_compose_file ⟨[["b"], ["b", "server"]], []⟩ ["b"] 27017 8080).2 = none) ∧
    ((_make_docker_compose_file ⟨[["a"], ["a", "server"]], []⟩ ["a"] 27017 8080).1.readFile
        (["a"] ++ ["docker-compose.yml"]) =
      (_make_docker_compose_file ⟨[["b"], ["b", "server"]], []⟩ ["b"] 27017 8080).1.readFile
        (["b"] ++ ["docker-compose.yml"]) ∧
    (_make_env_file ⟨[["a"], ["a", "server"]], []⟩ ["a"] 27017 ("admin") ("p455w0rd")
        ("sample-abcdef")).1.readFile (["a"] ++ [".env"]) =
      (_make_env_file ⟨[["b"], ["b", "server"]], []⟩ ["b"] 27017 ("admin") ("p455w0rd")
        ("sample-abcdef")).1.readFile (["b"] ++ [".env"]) ∧
    (_make_dockerfile ⟨[["a"], ["a", "server"]], []⟩ ["a"]).1.readFile
        (["a"] ++ ["server", "Dockerfile"]) =
      (_make_dockerfile ⟨[["b"], ["b", "server"]], []⟩ ["b"]).1.readFile
        (["b"] ++ ["server", "Dockerfile"]) ∧
    (_make_requirements_file ⟨[["a"], ["a", "server"]], []⟩ ["a"]).1.readFile
        (["a"] ++ ["server", "requirements.txt"]) =
      (_make_requirements_file ⟨[["b"], ["b", "server"]], []⟩ ["b"]).1.readFile
        (["b"] ++ ["server", "requirements.txt"])) :=
  ⟨⟨by decide, by decide⟩,
    c6_composers_deterministic ⟨[["a"], ["a", "server"]], []⟩ ⟨[["b"], ["b", "server"]], []⟩
      ["a"] ["b"] 27017 8080 ("admin") ("p455w0rd") ("sample-abcdef")
      (by decide) (by decide) (by decide) (by decide) (by decide) (by decide) (by decide)
      (by decide)⟩

lemma append_ne_empty_left (a b : String) (h : a ≠ "") : a ++ b ≠ "" := by
  intro hh
  apply h
  have hd := congrArg String.data hh
  rw [String.data_append] at hd
  have hnil : a.data = [] := (List.append_eq_nil.mp hd).1
  exact congrArg String.mk hnil

/-- C1 (amended): with arbitrary parameters, a fresh target directory and a
template selector resolving to an existing file, generation succeeds and the
target directory afterwards holds exactly the six artifacts at their fixed
relative paths — `server/app.py` carrying exactly the template's bytes,
`server/__init__.py` exactly empty, and the four composed artifacts
non-empty. -/
theorem c1_generate_project_artifacts (fs0 : FS) (fp : FsPath) (template : String)
    (mp hp : Int) (mu mpw mk tc : String)
    (ha : ∀ q ∈ fp.inits, fs0.isFile q = false)
    (hb : ∀ q ∈ fs0.dirs, fp.isPrefixOf q = true → q = fp)
    (hc : ∀ e ∈ fs0.files, fp.isPrefixOf e.1 = false)
    (hd : fs0.readFile (resolveTemplate template) = some tc) :
    (generate_project fs0 fp template mp hp mu mpw mk).2 = none ∧
    filesUnder (generate_project fs0 fp template mp hp mu mpw mk).1 fp =
      [(fp ++ ["server", "app.py"], tc),
       (fp ++ ["server", "__init__.py"], ""),
       (fp ++ ["server", "requirements.txt"], requirements_contents),
       (fp ++ ["server", "Dockerfile"], dockerfile_contents),
       (fp ++ [".env"], env_contents mp mu mpw mk),
       (fp ++ ["docker-compose.yml"], docker_compose_contents mp hp)] ∧
    docker_compose_contents mp hp ≠ "" ∧ env_contents mp mu mpw mk ≠ "" ∧
    dockerfile_contents ≠ "" ∧ requirements_contents ≠ "" := by
  obtain ⟨d, hD, hserver, hdl, heq⟩ := generate_project_run fs0 fp template mp hp mu mpw mk ha hb hc
  have htnot : fp.isPrefixOf (resolveTemplate template) = false := by
    cases hE : fp.isPrefixOf (resolveTemplate template) with
    | false => rfl
    | true =>
      obtain ⟨s, hs⟩ := isPrefixOf_ex hE
      have hff := isFile_app_false hc s
      rw [← hs] at hff
      unfold FS.isFile at hff
      rw [hd] at hff
      simp at hff
  have hread : FS.readFile ⟨d ++ fs0.dirs, writtenFiles fp mp hp mu mpw mk ++ fs0.files⟩
      (resolveTemplate template) = some tc := by
    rw [readFile_app_skip _ _ _ _ ?hne]
    case hne =>
      intro e he
      simp only [writtenFiles, List.mem_cons] at he
      rcases he with rfl | rfl | rfl | rfl | rfl | he
      · exact app_ne_of_not_under htnot _
      · exact app_ne_of_not_under htnot _
      · exact app_ne_of_not_under htnot _
      · exact app_ne_of_not_under htnot _
      · exact app_ne_of_not_under htnot _
      · simp at he
    rw [show FS.readFile ⟨d ++ fs0.dirs, fs0.files⟩ (resolveTemplate template) =
        fs0.readFile (resolveTemplate template) from rfl]
    exact hd
  have hcopy : FS.copy ⟨d ++ fs0.dirs, writtenFiles fp mp hp mu mpw mk ++ fs0.files⟩
      (resolveTemplate template) (fp ++ ["server", "app.py"]) =
      (⟨d ++ fs0.dirs,
        (fp ++ ["server", "app.py"], tc) :: (writtenFiles fp mp hp mu mpw mk ++ fs0.files)⟩,
       none) := by
    unfold FS.copy
    rw [hread]
    change FS.writeFile ⟨d ++ fs0.dirs, writtenFiles fp mp hp mu mpw mk ++ fs0.files⟩
        (fp ++ ["server", "app.py"]) tc =
      (⟨d ++ fs0.dirs,
        (fp ++ ["server", "app.py"], tc) :: (writtenFiles fp mp hp mu mpw mk ++ fs0.files)⟩,
       none)
    apply write_step (d ++ fs0.dirs) _ fp ["server", "app.py"] tc
    · exact hD
    · rw [dropLast_app2]
      simp [FS.isDir, hserver]
    · simp
    · simp
    · intro e he
      rcases List.mem_append.mp he with he | he
      · simp only [writtenFiles, List.mem_cons] at he
        rcases he with rfl | rfl | rfl | rfl | rfl | he
        · exact app_suffix_ne (by simp)
        · exact app_suffix_ne (by simp)
        · exact app_suffix_ne (by simp)
        · exact app_suffix_ne (by simp)
        · exact app_suffix_ne (by simp)
        · simp at he
      · exact ne_target (hc e he) _
  rw [heq, hcopy]
  refine ⟨rfl, ?_, ?_, ?_, by decide, by decide⟩
  · unfold filesUnder
    rw [List.filter_cons_of_pos (by simp [isPrefixOf_self_app fp ["server", "app.py"]])]
    rw [List.filter_append]
    rw [List.filter_eq_self.mpr (by
      intro e he
      simp only [writtenFiles, List.mem_cons] at he
      rcases he with rfl | rfl | rfl | rfl | rfl | he
      · exact isPrefixOf_self_app fp _
      · exact isPrefixOf_self_app fp _
      · exact isPrefixOf_self_app fp _
      · exact isPrefixOf_self_app fp _
      · exact isPrefixOf_self_app fp _
      · simp at he)]
    rw [List.filter_eq_nil_iff.mpr (by
      intro e he
      simp [hc e he])]
    rw [List.append_nil]
    rfl
  · unfold docker_compose_contents
    exact append_ne_empty_left _ _ (append_ne_empty_left _ _ (append_ne_empty_left _ _
      (append_ne_empty_left _ _ (append_ne_empty_left _ _ (append_ne_empty_left _ _
        (append_ne_empty_left _ _ (append_ne_empty_left _ _ (by decide))))))))
  · unfold env_contents
    exact append_ne_empty_left _ _ (append_ne_empty_left _ _ (append_ne_empty_left _ _
      (append_ne_empty_left _ _ (append_ne_empty_left _ _ (append_ne_empty_left _ _
        (append_ne_empty_left _ _ (append_ne_empty_left _ _ (append_ne_empty_left _ _
          (append_ne_empty_left _ _ (append_ne_empty_left _ _ (append_ne_empty_left _ _
            (by decide))))))))))))

/-- C1 counterexample: with a valid template — an existing, readable file that
happens to be empty — generation into a fresh directory succeeds, yet the
written `server/app.py` is empty, contradicting the claim that every artifact
except `server/__init__.py` has non-empty content. -/
theorem c1_app_file_can_be_empty :
    (generate_project ⟨[], [(["t"], "")]⟩ ["proj"] ("t") 27017 8080 ("admin") ("p455w0rd")
      ("sample-abcdef")).2 = none ∧
    (generate_project ⟨[], [(["t"], "")]⟩ ["proj"] ("t") 27017 8080 ("admin") ("p455w0rd")
      ("sample-abcdef")).1.readFile (["proj", "server", "app.py"]) = some ("") :=
  ⟨by decide, by decide⟩

/-- C1 witness: generating into the fresh directory `proj` of the shipped
tree, selecting the bundled template by its path, yields exactly the six
artifacts. -/
theorem c1_generate_project_artifacts_witness :
    FS.readFile shippedFS (resolveTemplate simpleTemplateRelPath) = some simpleTemplateText ∧
    ((generate_project shippedFS ["proj"] simpleTemplateRelPath 27017 8080 ("admin")
        ("p455w0rd") ("sample-abcdef")).2 = none ∧
    filesUnder (generate_project shippedFS ["proj"] simpleTemplateRelPath 27017 8080 ("admin")
        ("p455w0rd") ("sample-abcdef")).1 ["proj"] =
      [(["proj"] ++ ["server", "app.py"], simpleTemplateText),
       (["proj"] ++ ["server", "__init__.py"], ""),
       (["proj"] ++ ["server", "requirements.txt"], requirements_contents),
       (["proj"] ++ ["server", "Dockerfile"], dockerfile_contents),
       (["proj"] ++ [".env"], env_contents 27017 ("admin") ("p455w0rd") ("sample-abcdef")),
       (["proj"] ++ ["docker-compose.yml"], docker_compose_contents 27017 8080)] ∧
    docker_compose_contents 27017 8080 ≠ "" ∧
    env_contents 27017 ("admin") ("p455w0rd") ("sample-abcdef") ≠ "" ∧
    dockerfile_contents ≠ "" ∧ requirements_contents ≠ "") :=
  ⟨by decide,
    c1_generate_project_artifacts shippedFS ["proj"] simpleTemplateRelPath 27017 8080 ("admin")
      ("p455w0rd") ("sample-abcdef") simpleTemplateText (by decide) (by decide) (by decide)
      (by decide)⟩

/-- C8: when all five composed artifacts were written successfully and the
template copy then fails because the resolved template path names no file,
generation surfaces the file-not-found error while the five artifacts written
before it remain in the target directory with their exact contents. -/
theorem c8_no_rollback_after_template_failure (fs0 : FS) (fp : FsPath) (template : String)
    (mp hp : Int) (mu mpw mk : String)
    (ha : ∀ q ∈ fp.inits, fs0.isFile q = false)
    (hb : ∀ q ∈ fs0.dirs, fp.isPrefixOf q = true → q = fp)
    (hc : ∀ e ∈ fs0.files, fp.isPrefixOf e.1 = false)
    (hd : fs0.isFile (resolveTemplate template) = false)
    (he : fp.isPrefixOf (resolveTemplate template) = false)
    (hf : resolveTemplate template ∉ fs0.dirs)
    (hg : resolveTemplate template ∉ fp.inits)
    (hh : resolveTemplate template ≠ fp ++ ["server"])
    (hi : resolveTemplate template ≠ []) :
    (generate_project fs0 fp template mp hp mu mpw mk).2 = some FsError.fileNotFound ∧
    filesUnder (generate_project fs0 fp template mp hp mu mpw mk).1 fp =
      [(fp ++ ["server", "__init__.py"], ""),
       (fp ++ ["server", "requirements.txt"], requirements_contents),
       (fp ++ ["server", "Dockerfile"], dockerfile_contents),
       (fp ++ [".env"], env_contents mp mu mpw mk),
       (fp ++ ["docker-compose.yml"], docker_compose_contents mp hp)] := by
  obtain ⟨d, hD, hserver, hdl, heq⟩ := generate_project_run fs0 fp template mp hp mu mpw mk ha hb hc
  have hread : FS.readFile ⟨d ++ fs0.dirs, writtenFiles fp mp hp mu mpw mk ++ fs0.files⟩
      (resolveTemplate template) = none := by
    rw [readFile_app_skip _ _ _ _ ?hne]
    case hne =>
      intro e he'
      simp only [writtenFiles, List.mem_cons] at he'
      rcases he' with rfl | rfl | rfl | rfl | rfl | he'
      · exact app_ne_of_not_under he _
      · exact app_ne_of_not_under he _
      · exact app_ne_of_not_under he _
      · exact app_ne_of_not_under he _
      · exact app_ne_of_not_under he _
      · simp at he'
    rw [show FS.readFile ⟨d ++ fs0.dirs, fs0.files⟩ (resolveTemplate template) =
        fs0.readFile (resolveTemplate template) from rfl]
    unfold FS.isFile at hd
    cases hE : fs0.readFile (resolveTemplate template) with
    | none => rfl
    | some c =>
      rw [hE] at hd
      simp at hd
  have hdirF : FS.isDir ⟨d ++ fs0.dirs, writtenFiles fp mp hp mu mpw mk ++ fs0.files⟩
      (resolveTemplate template) = false := by
    simp only [FS.isDir, Bool.or_eq_false_iff, decide_eq_false_iff_not]
    constructor
    · cases hE : resolveTemplate template with
      | nil => exact absurd hE hi
      | cons a s => rfl
    · intro hmem
      rcases List.mem_append.mp hmem with hmem | hmem
      · rcases hdl _ hmem with hmem' | hmem'
        · exact hg hmem'
        · exact hh hmem'
      · exact hf hmem
  have hcopy : FS.copy ⟨d ++ fs0.dirs, writtenFiles fp mp hp mu mpw mk ++ fs0.files⟩
      (resolveTemplate template) (fp ++ ["server", "app.py"]) =
      (⟨d ++ fs0.dirs, writtenFiles fp mp hp mu mpw mk ++ fs0.files⟩,
       some FsError.fileNotFound) := by
    unfold FS.copy
    rw [hread, if_neg (by rw [hdirF]; simp)]
  rw [heq, hcopy]
  refine ⟨rfl, ?_⟩
  unfold filesUnder
  rw [List.filter_append]
  rw [List.filter_eq_self.mpr (by
    intro e he'
    simp only [writtenFiles, List.mem_cons] at he'
    rcases he' with rfl | rfl | rfl | rfl | rfl | he'
    · exact isPrefixOf_self_app fp _
    · exact isPrefixOf_self_app fp _
    · exact isPrefixOf_self_app fp _
    · exact isPrefixOf_self_app fp _
    · exact isPrefixOf_self_app fp _
    · simp at he')]
  rw [List.filter_eq_nil_iff.mpr (by
    intro e he'
    simp [hc e he'])]
  rw [List.append_nil]
  rfl

/-- C8 witness: on the shipped tree, generation into `proj` with the missing
template path `no-such-template.py` fails at the copy step with file-not-found
while all five previously written artifacts remain. -/
theorem c8_no_rollback_after_template_failure_witness :
    FS.isFile shippedFS (resolveTemplate ("no-such-template.py")) = false ∧
    ((generate_project shippedFS ["proj"] ("no-such-template.py") 27017 8080 ("admin")
        ("p455w0rd") ("sample-abcdef")).2 = some FsError.fileNotFound ∧
    filesUnder (generate_project shippedFS ["proj"] ("no-such-template.py") 27017 8080 ("admin")
        ("p455w0rd") ("sample-abcdef")).1 ["proj"] =
      [(["proj"] ++ ["server", "__init__.py"], ""),
       (["proj"] ++ ["server", "requirements.txt"], requirements_contents),
       (["proj"] ++ ["server", "Dockerfile"], dockerfile_contents),
       (["proj"] ++ [".env"], env_contents 27017 ("admin") ("p455w0rd") ("sample-abcdef")),
       (["proj"] ++ ["docker-compose.yml"], docker_compose_contents 27017 8080)]) :=
  ⟨by decide,
    c8_no_rollback_after_template_failure shippedFS ["proj"] ("no-such-template.py") 27017 8080
      ("admin") ("p455w0rd") ("sample-abcdef") (by decide) (by decide) (by decide) (by decide)
      (by decide) (by decide) (by decide) (by decide) (by decide)⟩

/-- C3: the end-to-end call with target `/tmp/proj1`, selector
`default:simple`, database port 27018, http port 9090, user `u`, password `p`
and api key `k1` writes a `.env` whose lines include `DB_PORT=27018`,
`DB_USER=u`, `DB_PASS=p` and `SERVER_API_KEY=k1`, and a `docker-compose.yml`
whose database service publishes the port mapping `27018:27017` and whose
application service publishes `9090:8080`. -/
theorem c3_end_to_end_scenario :
    (generate_project shippedFS ["tmp", "proj1"] ("default:simple") 27018 9090 ("u") ("p")
        ("k1")).1.readFile (["tmp", "proj1", ".env"]) =
      some (env_contents 27018 ("u") ("p") ("k1")) ∧
    (linesOf (env_contents 27018 ("u") ("p") ("k1"))).contains ("DB_PORT=27018") = true ∧
    (linesOf (env_contents 27018 ("u") ("p") ("k1"))).contains ("DB_USER=u") = true ∧
    (linesOf (env_contents 27018 ("u") ("p") ("k1"))).contains ("DB_PASS=p") = true ∧
    (linesOf (env_contents 27018 ("u") ("p") ("k1"))).contains ("SERVER_API_KEY=k1") = true ∧
    (generate_project shippedFS ["tmp", "proj1"] ("default:simple") 27018 9090 ("u") ("p")
        ("k1")).1.readFile (["tmp", "proj1", "docker-compose.yml"]) =
      some (docker_compose_contents 27018 9090) ∧
    docker_compose_contents 27018 9090 =
      composeSeg0 ++ "27018:27017\n    expose:\n      - 27018" ++ composeSeg2 ++
        "9090:8080\n    expose:\n      - 9090\n" ∧
    (linesOf (docker_compose_contents 27018 9090)).contains ("      - 27018:27017") = true ∧
    (linesOf (docker_compose_contents 27018 9090)).contains ("      - 9090:8080") = true :=
  ⟨by decide, by decide, by decide, by decide, by decide, by decide, by decide, by decide,
    by decide⟩

/-- C4: evaluation at the failing input.  The bundled simple template ships at
`generators/templates/simple-application-template.py`, but `default:simple`
resolves to `generators/simple-application-template.py` (the `templates`
component is missing from the join), which names no shipped file, so
generation raises the file-not-found error instead of copying the bundled
bytes.  An arbitrary path selector naming an existing file does copy that
file's bytes verbatim to `server/app.py`, and a nonexistent path raises the
file-not-found error. -/
theorem c4_template_resolution_behaviour :
    FS.isFile shippedFS simpleTemplatePath = true ∧
    resolveTemplate ("default:simple") = generatorDir ++ ["simple-application-template.py"] ∧
    FS.isFile shippedFS (resolveTemplate ("default:simple")) = false ∧
    (generate_project shippedFS ["proj"] ("default:simple") 27017 8080 ("admin") ("p455w0rd")
      ("sample-abcdef")).2 = some FsError.fileNotFound ∧
    (generate_project shippedFS ["proj"] simpleTemplateRelPath 27017 8080 ("admin") ("p455w0rd")
      ("sample-abcdef")).2 = none ∧
    (generate_project shippedFS ["proj"] simpleTemplateRelPath 27017 8080 ("admin") ("p455w0rd")
        ("sample-abcdef")).1.readFile (["proj", "server", "app.py"]) =
      some simpleTemplateText ∧
    (generate_project shippedFS ["proj"] ("no-such-template.py") 27017 8080 ("admin")
      ("p455w0rd") ("sample-abcdef")).2 = some FsError.fileNotFound :=
  ⟨by decide, by decide, by decide, by decide, by decide, by decide, by decide⟩

/-- C5 counterexample: `default:multiple` does not resolve to a file shipped
with the generator — no file named `multichar-application-template.py` exists
anywhere in the shipped tree — so selecting it on an otherwise valid request
fails with file-not-found instead of succeeding. -/
theorem c5_default_multiple_not_shipped :
    FS.isFile shippedFS (resolveTemplate ("default:multiple")) = false ∧
    (shippedFS.files.map Prod.fst).all
      (fun p => !(p.contains ("multichar-application-template.py"))) = true ∧
    (generate_project shippedFS ["proj"] ("default:multiple") 27017 8080 ("admin") ("p455w0rd")
      ("sample-abcdef")).2 = some FsError.fileNotFound :=
  ⟨by decide, by decide, by decide⟩

/-- C5 (amended): the two identifiers `default:simple` and `default:multiple`
are special-cased, each resolving to a fixed filename directly under the
generator's own directory (not under `templates/`), while every other
selector string is treated as a literal filesystem path; in the shipped tree
only the simple template exists, under `templates/`, so neither builtin's
resolved path names a shipped file. -/
theorem c5_builtin_identifier_resolution (s : String)
    (h1 : s ≠ "default:simple") (h2 : s ≠ "default:multiple") :
    resolveTemplate ("default:simple") = generatorDir ++ ["simple-application-template.py"] ∧
    resolveTemplate ("default:multiple") = generatorDir ++ ["multichar-application-template.py"] ∧
    resolveTemplate s = parsePath s ∧
    FS.isFile shippedFS (resolveTemplate ("default:simple")) = false ∧
    FS.isFile shippedFS (resolveTemplate ("default:multiple")) = false ∧
    FS.isFile shippedFS simpleTemplatePath = true := by
  refine ⟨rfl, rfl, ?_, by decide, by decide, by decide⟩
  simp [resolveTemplate, h1, h2]

/-- C5 witness: the ordinary selector `my-template.py` is treated as a
literal filesystem path. -/
theorem c5_builtin_identifier_resolution_witness :
    resolveTemplate ("default:simple") = generatorDir ++ ["simple-application-template.py"] ∧
    resolveTemplate ("default:multiple") = generatorDir ++ ["multichar-application-template.py"] ∧
    resolveTemplate ("my-template.py") = parsePath ("my-template.py") ∧
    FS.isFile shippedFS (resolveTemplate ("default:simple")) = false ∧
    FS.isFile shippedFS (resolveTemplate ("default:multiple")) = false ∧
    FS.isFile shippedFS simpleTemplatePath = true :=
  c5_builtin_identifier_resolution ("my-template.py") (by decide) (by decide)

lemma splitOnChar_cons_sep (sep : Char) (cs : List Char) :
    splitOnChar sep (sep :: cs) = [] :: splitOnChar sep cs := by
  simp [splitOnChar]

lemma splitOnChar_ne_nil (sep : Char) (cs : List Char) : splitOnChar sep cs ≠ [] := by
  cases cs with
  | nil => simp [splitOnChar]
  | cons c cs => by_cases h : c = sep <;> simp [splitOnChar, h]

lemma splitOnChar_app_nosep (sep : Char) (xs ys : List Char) (h : ∀ c ∈ xs, c ≠ sep) :
    splitOnChar sep (xs ++ ys) =
      (xs ++ (splitOnChar sep ys).headD []) :: (splitOnChar sep ys).tail := by
  induction xs with
  | nil =>
    simp only [List.nil_append]
    cases hE : splitOnChar sep ys with
    | nil => exact absurd hE (splitOnChar_ne_nil sep ys)
    | cons a l => simp
  | cons c xs ih =>
    rw [List.cons_append]
    rw [show splitOnChar sep (c :: (xs ++ ys)) =
        (c :: (splitOnChar sep (xs ++ ys)).headD []) :: (splitOnChar sep (xs ++ ys)).tail by
      simp [splitOnChar, h c (by simp)]]
    rw [ih (fun c' hc' => h c' (by simp [hc']))]
    simp

lemma splitOnChar_line (xs ys : List Char) (h : ∀ c ∈ xs, c ≠ nlChar) :
    splitOnChar nlChar (xs ++ nlChar :: ys) = xs :: splitOnChar nlChar ys := by
  rw [splitOnChar_app_nosep nlChar xs (nlChar :: ys) h, splitOnChar_cons_sep]
  simp

lemma mk_data (a : String) : String.mk a.data = a := rfl

lemma mk_data_append (a b : String) : String.mk (a.data ++ b.data) = a ++ b := rfl

lemma mk_nil : String.mk ([] : List Char) = "" := rfl

lemma envSeg1_data : envSeg1.data = nlChar :: ("MONGO_INITDB_ROOT_PASSWORD=" : String).data := by
  decide

lemma envSeg2_data :
    envSeg2.data =
      nlChar :: (("DB_HOST=mongodb" : String).data ++ nlChar :: ("DB_PORT=" : String).data) := by
  decide

lemma envSeg3_data : envSeg3.data = nlChar :: ("DB_USER=" : String).data := by decide

lemma envSeg4_data : envSeg4.data = nlChar :: ("DB_PASS=" : String).data := by decide

lemma envSeg5_data : envSeg5.data = nlChar :: ("SERVER_API_KEY=" : String).data := by decide

lemma envSeg6_data :
    envSeg6.data =
      nlChar :: (("WAITRESS_PORT=8080" : String).data ++
        nlChar :: (("MODULE_NAME=app" : String).data ++
          nlChar :: (("VARIABLE_NAME=app" : String).data ++ nlChar :: ([] : List Char)))) := by
  decide

lemma env_contents_data (mp : Int) (mu mpw mk : String) :
    (env_contents mp mu mpw mk).data =
      (("MONGO_INITDB_ROOT_USERNAME=" : String).data ++ mu.data) ++ nlChar ::
      ((("MONGO_INITDB_ROOT_PASSWORD=" : String).data ++ mpw.data) ++ nlChar ::
      (("DB_HOST=mongodb" : String).data ++ nlChar ::
      ((("DB_PORT=" : String).data ++ (toString mp).data) ++ nlChar ::
      ((("DB_USER=" : String).data ++ mu.data) ++ nlChar ::
      ((("DB_PASS=" : String).data ++ mpw.data) ++ nlChar ::
      ((("SERVER_API_KEY=" : String).data ++ mk.data) ++ nlChar ::
      (("WAITRESS_PORT=8080" : String).data ++ nlChar ::
      (("MODULE_NAME=app" : String).data ++ nlChar ::
      (("VARIABLE_NAME=app" : String).data ++ nlChar :: ([] : List Char)))))))))) := by
  simp [env_contents, envSeg0, envSeg1_data, envSeg2_data, envSeg3_data, envSeg4_data,
    envSeg5_data, envSeg6_data, String.data_append, List.append_assoc]

/-- Line structure of every generated `.env`: for parameter values free of
newlines, the file parses into exactly these `KEY=VALUE` lines. -/
lemma env_lines (mp : Int) (mu mpw mk : String)
    (hmu : ∀ c ∈ mu.data, c ≠ nlChar) (hmpw : ∀ c ∈ mpw.data, c ≠ nlChar)
    (hmk : ∀ c ∈ mk.data, c ≠ nlChar) (hmp : ∀ c ∈ (toString mp).data, c ≠ nlChar) :
    linesOf (env_contents mp mu mpw mk) =
      ["MONGO_INITDB_ROOT_USERNAME=" ++ mu, "MONGO_INITDB_ROOT_PASSWORD=" ++ mpw,
       "DB_HOST=mongodb", "DB_PORT=" ++ toString mp, "DB_USER=" ++ mu, "DB_PASS=" ++ mpw,
       "SERVER_API_KEY=" ++ mk, "WAITRESS_PORT=8080", "MODULE_NAME=app", "VARIABLE_NAME=app",
       ""] := by
  have hlit : ∀ s : List Char, (∀ c ∈ s, c ≠ nlChar) → ∀ t : List Char,
      (∀ c ∈ t, c ≠ nlChar) → ∀ c ∈ s ++ t, c ≠ nlChar := by
    intro s hs t ht c hcm
    rcases List.mem_append.mp hcm with hcm | hcm
    · exact hs c hcm
    · exact ht c hcm
  unfold linesOf
  rw [env_contents_data]
  rw [splitOnChar_line _ _ (hlit _ (by decide) _ hmu)]
  rw [splitOnChar_line _ _ (hlit _ (by decide) _ hmpw)]
  rw [splitOnChar_line _ _ (by decide)]
  rw [splitOnChar_line _ _ (hlit _ (by decide) _ hmp)]
  rw [splitOnChar_line _ _ (hlit _ (by decide) _ hmu)]
  rw [splitOnChar_line _ _ (hlit _ (by decide) _ hmpw)]
  rw [splitOnChar_line _ _ (hlit _ (by decide) _ hmk)]
  rw [splitOnChar_line _ _ (by decide)]
  rw [splitOnChar_line _ _ (by decide)]
  rw [splitOnChar_line _ _ (by decide)]
  simp only [splitOnChar, List.map_cons, List.map_nil, mk_data, mk_data_append, mk_nil]
  rfl

lemma composeSeg0_data :
    composeSeg0.data =
      ("version: \x273.7\x27" : String).data ++ nlChar ::
      (("services:" : String).data ++ nlChar ::
      (("  mongodb:" : String).data ++ nlChar ::
      (("    image: mongo:6.0" : String).data ++ nlChar ::
      (("    env_file: .env" : String).data ++ nlChar ::
      (("    ports:" : String).data ++ nlChar :: ("      - " : String).data))))) := by
  decide

lemma composeSeg1_data :
    composeSeg1.data =
      (":27017" : String).data ++ nlChar ::
      (("    expose:" : String).data ++ nlChar :: ("      - " : String).data) := by
  decide

lemma composeSeg2_data :
    composeSeg2.data =
      nlChar :: (("    volumes:" : String).data ++ nlChar ::
      (("      - .tmp/mongo:/data/db" : String).data ++ nlChar ::
      (("  http:" : String).data ++ nlChar ::
      (("    build:" : String).data ++ nlChar ::
      (("      context: ./server" : String).data ++ nlChar ::
      (("    env_file: .env" : String).data ++ nlChar ::
      (("    ports:" : String).data ++ nlChar :: ("      - " : String).data))))))) := by
  decide

lemma composeSeg3_data :
    composeSeg3.data =
      (":8080" : String).data ++ nlChar ::
      (("    expose:" : String).data ++ nlChar :: ("      - " : String).data) := by
  decide

lemma composeSeg4_data : composeSeg4.data = nlChar :: ([] : List Char) := by decide

lemma docker_compose_contents_data (mp hp : Int) :
    (docker_compose_contents mp hp).data =
      ("version: \x273.7\x27" : String).data ++ nlChar ::
      (("services:" : String).data ++ nlChar ::
      (("  mongodb:" : String).data ++ nlChar ::
      (("    image: mongo:6.0" : String).data ++ nlChar ::
      (("    env_file: .env" : String).data ++ nlChar ::
      (("    ports:" : String).data ++ nlChar ::
      (((("      - " : String).data ++ (toString mp).data) ++ (":27017" : String).data) ++ nlChar ::
      (("    expose:" : String).data ++ nlChar ::
      ((("      - " : String).data ++ (toString mp).data) ++ nlChar ::
      (("    volumes:" : String).data ++ nlChar ::
      (("      - .tmp/mongo:/data/db" : String).data ++ nlChar ::
      (("  http:" : String).data ++ nlChar ::
      (("    build:" : String).data ++ nlChar ::
      (("      context: ./server" : String).data ++ nlChar ::
      (("    env_file: .env" : String).data ++ nlChar ::
      (("    ports:" : String).data ++ nlChar ::
      (((("      - " : String).data ++ (toString hp).data) ++ (":8080" : String).data) ++ nlChar ::
      (("    expose:" : String).data ++ nlChar ::
      ((("      - " : String).data ++ (toString hp).data) ++ nlChar ::
        ([] : List Char))))))))))))))))))) := by
  simp [docker_compose_contents, composeSeg0_data, composeSeg1_data, composeSeg2_data,
    composeSeg3_data, composeSeg4_data, String.data_append, List.append_assoc]

/-- Line structure of every generated `docker-compose.yml`: for port renderings
free of newlines, the file parses into exactly these lines, the two supplied
ports appearing only in the published/exposed port lines of the database and
application services respectively. -/
lemma docker_compose_lines (mp hp : Int)
    (hmp : ∀ c ∈ (toString mp).data, c ≠ nlChar) (hhp : ∀ c ∈ (toString hp).data, c ≠ nlChar) :
    linesOf (docker_compose_contents mp hp) =
      ["version: \x273.7\x27", "services:", "  mongodb:", "    image: mongo:6.0",
       "    env_file: .env", "    ports:", "      - " ++ toString mp ++ ":27017",
       "    expose:", "      - " ++ toString mp, "    volumes:",
       "      - .tmp/mongo:/data/db", "  http:", "    build:", "      context: ./server",
       "    env_file: .env", "    ports:", "      - " ++ toString hp ++ ":8080",
       "    expose:", "      - " ++ toString hp, ""] := by
  have hlit : ∀ s : List Char, (∀ c ∈ s, c ≠ nlChar) → ∀ t : List Char,
      (∀ c ∈ t, c ≠ nlChar) → ∀ c ∈ s ++ t, c ≠ nlChar := by
    intro s hs t ht c hcm
    rcases List.mem_append.mp hcm with hcm | hcm
    · exact hs c hcm
    · exact ht c hcm
  unfold linesOf
  rw [docker_compose_contents_data]
  rw [splitOnChar_line _ _ (by decide)]
  rw [splitOnChar_line _ _ (by decide)]
  rw [splitOnChar_line _ _ (by decide)]
  rw [splitOnChar_line _ _ (by decide)]
  rw [splitOnChar_line _ _ (by decide)]
  rw [splitOnChar_line _ _ (by decide)]
  rw [splitOnChar_line _ _ (hlit _ (hlit _ (by decide) _ hmp) _ (by decide))]
  rw [splitOnChar_line _ _ (by decide)]
  rw [splitOnChar_line _ _ (hlit _ (by decide) _ hmp)]
  rw [splitOnChar_line _ _ (by decide)]
  rw [splitOnChar_line _ _ (by decide)]
  rw [splitOnChar_line _ _ (by decide)]
  rw [splitOnChar_line _ _ (by decide)]
  rw [splitOnChar_line _ _ (by decide)]
  rw [splitOnChar_line _ _ (by decide)]
  rw [splitOnChar_line _ _ (by decide)]
  rw [splitOnChar_line _ _ (hlit _ (hlit _ (by decide) _ hhp) _ (by decide))]
  rw [splitOnChar_line _ _ (by decide)]
  rw [splitOnChar_line _ _ (hlit _ (by decide) _ hhp)]
  simp only [splitOnChar, List.map_cons, List.map_nil, mk_data, mk_data_append, mk_nil]
  rfl

/-- C7: for any two requests differing only in the ports, credentials or api
key, the orchestration and environment artifacts interpolate the supplied
values verbatim into their port/credential fields, around literal segments
that are independent of the request — so the two outputs are byte-identical
everywhere outside those fields; moreover, line by line, the supplied values
land exactly in the published/exposed port lines and the credential lines. -/
theorem c7_fields_carry_supplied_values (mp hp mp' hp' : Int)
    (mu mpw mk mu' mpw' mk' : String)
    (hmp : ∀ c ∈ (toString mp).data, c ≠ nlChar) (hhp : ∀ c ∈ (toString hp).data, c ≠ nlChar)
    (hmu : ∀ c ∈ mu.data, c ≠ nlChar) (hmpw : ∀ c ∈ mpw.data, c ≠ nlChar)
    (hmk : ∀ c ∈ mk.data, c ≠ nlChar) :
    (docker_compose_contents mp hp =
      composeSeg0 ++ toString mp ++ composeSeg1 ++ toString mp ++ composeSeg2 ++ toString hp ++
        composeSeg3 ++ toString hp ++ composeSeg4 ∧
    docker_compose_contents mp' hp' =
      composeSeg0 ++ toString mp' ++ composeSeg1 ++ toString mp' ++ composeSeg2 ++ toString hp' ++
        composeSeg3 ++ toString hp' ++ composeSeg4 ∧
    env_contents mp mu mpw mk =
      envSeg0 ++ mu ++ envSeg1 ++ mpw ++ envSeg2 ++ toString mp ++ envSeg3 ++ mu ++ envSeg4 ++
        mpw ++ envSeg5 ++ mk ++ envSeg6 ∧
    env_contents mp' mu' mpw' mk' =
      envSeg0 ++ mu' ++ envSeg1 ++ mpw' ++ envSeg2 ++ toString mp' ++ envSeg3 ++ mu' ++ envSeg4 ++
        mpw' ++ envSeg5 ++ mk' ++ envSeg6) ∧
    linesOf (docker_compose_contents mp hp) =
      ["version: \x273.7\x27", "services:", "  mongodb:", "    image: mongo:6.0",
       "    env_file: .env", "    ports:", "      - " ++ toString mp ++ ":27017",
       "    expose:", "      - " ++ toString mp, "    volumes:",
       "      - .tmp/mongo:/data/db", "  http:", "    build:", "      context: ./server",
       "    env_file: .env", "    ports:", "      - " ++ toString hp ++ ":8080",
       "    expose:", "      - " ++ toString hp, ""] ∧
    linesOf (env_contents mp mu mpw mk) =
      ["MONGO_INITDB_ROOT_USERNAME=" ++ mu, "MONGO_INITDB_ROOT_PASSWORD=" ++ mpw,
       "DB_HOST=mongodb", "DB_PORT=" ++ toString mp, "DB_USER=" ++ mu, "DB_PASS=" ++ mpw,
       "SERVER_API_KEY=" ++ mk, "WAITRESS_PORT=8080", "MODULE_NAME=app", "VARIABLE_NAME=app",
       ""] :=
  ⟨⟨rfl, rfl, rfl, rfl⟩, docker_compose_lines mp hp hmp hhp, env_lines mp mu mpw mk hmu hmpw hmk hmp⟩

/-- C7 witness: concrete requests with ports 27018/9090 and 26000/7000 and
credentials `u`/`p`/`k1`. -/
theorem c7_fields_carry_supplied_values_witness :
    (∀ c ∈ (toString (27018 : Int)).data, c ≠ nlChar) ∧
    ((docker_compose_contents 27018 9090 =
      composeSeg0 ++ toString (27018 : Int) ++ composeSeg1 ++ toString (27018 : Int) ++
        composeSeg2 ++ toString (9090 : Int) ++ composeSeg3 ++ toString (9090 : Int) ++
        composeSeg4 ∧
    docker_compose_contents 26000 7000 =
      composeSeg0 ++ toString (26000 : Int) ++ composeSeg1 ++ toString (26000 : Int) ++
        composeSeg2 ++ toString (7000 : Int) ++ composeSeg3 ++ toString (7000 : Int) ++
        composeSeg4 ∧
    env_contents 27018 ("u") ("p") ("k1") =
      envSeg0 ++ "u" ++ envSeg1 ++ "p" ++ envSeg2 ++ toString (27018 : Int) ++ envSeg3 ++ "u" ++
        envSeg4 ++ "p" ++ envSeg5 ++ "k1" ++ envSeg6 ∧
    env_contents 26000 ("u2") ("p2") ("k2") =
      envSeg0 ++ "u2" ++ envSeg1 ++ "p2" ++ envSeg2 ++ toString (26000 : Int) ++ envSeg3 ++
        "u2" ++ envSeg4 ++ "p2" ++ envSeg5 ++ "k2" ++ envSeg6) ∧
    linesOf (docker_compose_contents 27018 9090) =
      ["version: \x273.7\x27", "services:", "  mongodb:", "    image: mongo:6.0",
       "    env_file: .env", "    ports:", "      - " ++ toString (27018 : Int) ++ ":27017",
       "    expose:", "      - " ++ toString (27018 : Int), "    volumes:",
       "      - .tmp/mongo:/data/db", "  http:", "    build:", "      context: ./server",
       "    env_file: .env", "    ports:", "      - " ++ toString (9090 : Int) ++ ":8080",
       "    expose:", "      - " ++ toString (9090 : Int), ""] ∧
    linesOf (env_contents 27018 ("u") ("p") ("k1")) =
      ["MONGO_INITDB_ROOT_USERNAME=" ++ "u", "MONGO_INITDB_ROOT_PASSWORD=" ++ "p",
       "DB_HOST=mongodb", "DB_PORT=" ++ toString (27018 : Int), "DB_USER=" ++ "u",
       "DB_PASS=" ++ "p", "SERVER_API_KEY=" ++ "k1", "WAITRESS_PORT=8080", "MODULE_NAME=app",
       "VARIABLE_NAME=app", ""]) :=
  ⟨by decide,
    c7_fields_carry_supplied_values 27018 9090 26000 7000 ("u") ("p") ("k1") ("u2") ("p2") ("k2")
      (by decide) (by decide) (by decide) (by decide) (by decide)⟩

/-- C9: in every generated `.env`, the bootstrap credentials duplicate the
connection credentials verbatim: the value written after
`MONGO_INITDB_ROOT_USERNAME=` is the same request field as the value written
after `DB_USER=`, and likewise `MONGO_INITDB_ROOT_PASSWORD=` and `DB_PASS=`;
for newline-free values the parsed lines therefore pair both keys of each
pair with equal values. -/
theorem c9_bootstrap_credentials_duplicate_connection_credentials (mp : Int)
    (mu mpw mk : String)
    (hmu : ∀ c ∈ mu.data, c ≠ nlChar) (hmpw : ∀ c ∈ mpw.data, c ≠ nlChar)
    (hmk : ∀ c ∈ mk.data, c ≠ nlChar) (hmp : ∀ c ∈ (toString mp).data, c ≠ nlChar) :
    env_contents mp mu mpw mk =
      "MONGO_INITDB_ROOT_USERNAME=" ++ mu ++ "\nMONGO_INITDB_ROOT_PASSWORD=" ++ mpw ++
        "\nDB_HOST=mongodb\nDB_PORT=" ++ toString mp ++ "\nDB_USER=" ++ mu ++ "\nDB_PASS=" ++
        mpw ++ "\nSERVER_API_KEY=" ++ mk ++
        "\nWAITRESS_PORT=8080\nMODULE_NAME=app\nVARIABLE_NAME=app\n" ∧
    (("MONGO_INITDB_ROOT_USERNAME=" ++ mu) ∈ linesOf (env_contents mp mu mpw mk) ∧
    ("DB_USER=" ++ mu) ∈ linesOf (env_contents mp mu mpw mk) ∧
    ("MONGO_INITDB_ROOT_PASSWORD=" ++ mpw) ∈ linesOf (env_contents mp mu mpw mk) ∧
    ("DB_PASS=" ++ mpw) ∈ linesOf (env_contents mp mu mpw mk)) := by
  refine ⟨rfl, ?_, ?_, ?_, ?_⟩ <;>
    rw [env_lines mp mu mpw mk hmu hmpw hmk hmp] <;> simp

/-- C9 witness: the default credentials `admin`/`p455w0rd` are written to
both key pairs of a concrete `.env`. -/
theorem c9_bootstrap_credentials_duplicate_connection_credentials_witness :
    (∀ c ∈ ("admin" : String).data, c ≠ nlChar) ∧
    (env_contents 27017 ("admin") ("p455w0rd") ("sample-abcdef") =
      "MONGO_INITDB_ROOT_USERNAME=" ++ "admin" ++ "\nMONGO_INITDB_ROOT_PASSWORD=" ++
        "p455w0rd" ++ "\nDB_HOST=mongodb\nDB_PORT=" ++ toString (27017 : Int) ++ "\nDB_USER=" ++
        "admin" ++ "\nDB_PASS=" ++ "p455w0rd" ++ "\nSERVER_API_KEY=" ++ "sample-abcdef" ++
        "\nWAITRESS_PORT=8080\nMODULE_NAME=app\nVARIABLE_NAME=app\n" ∧
    (("MONGO_INITDB_ROOT_USERNAME=" ++ "admin") ∈
      linesOf (env_contents 27017 ("admin") ("p455w0rd") ("sample-abcdef")) ∧
    ("DB_USER=" ++ "admin") ∈
      linesOf (env_contents 27017 ("admin") ("p455w0rd") ("sample-abcdef")) ∧
    ("MONGO_INITDB_ROOT_PASSWORD=" ++ "p455w0rd") ∈
      linesOf (env_contents 27017 ("admin") ("p455w0rd") ("sample-abcdef")) ∧
    ("DB_PASS=" ++ "p455w0rd") ∈
      linesOf (env_contents 27017 ("admin") ("p455w0rd") ("sample-abcdef")))) :=
  ⟨by decide,
    c9_bootstrap_credentials_duplicate_connection_credentials 27017 ("admin") ("p455w0rd")
      ("sample-abcdef") (by decide) (by decide) (by decide) (by decide)⟩
